import Mathlib

/-!
Verification of the filesystem facade of the XRootD client
(`xrootd/client/filesystem.go`).

The facade's own code is embedded line by line from the source.  The
collaborators it uses — the transport primitives `Client.call` /
`Client.Send`, the per-verb request/response types of the `xrdproto`
sub-packages, and the `xrdfs` entity types — are not part of the examined
source tree; following the specification (sections 3 and 6) they are
modelled as explicit Lean structures, each marked `Modelled from the spec`.

Conventions of the embedding:
* Go's `error` interface value (nil or an error) is `Option Err`;
* Go's nil-able slice `[]T` is `Option (List T)`, a nil-able interface
  value (`xrdfs.File`) is `Option file`;
* a Go method on `*fileSystem` is a Lean function that also returns the
  receiver value as it stands after the body ran (`fsAfter`), so that the
  absence of mutation is a provable statement;
* each invocation of a transport primitive contributes the single request
  it sent to a trace (`sent`), so that "exactly one request, no
  client-side loop" is a provable statement about the facade body.
-/

/-- Modelled from the spec: the error taxonomy of section 7 — transport-level
cancellation and protocol-level semantic failures.  The facade never inspects
an error, so two constructors suffice to distinguish the cancellation case. -/
inductive Err where
  | canceled
  | protocol (code : Nat) (msg : String)
deriving DecidableEq, Repr

/-- Modelled from the spec: `OpenMode` is a bit-set of POSIX-like permission
bits (section 3), an integer-backed flag type. -/
abbrev xrdfs.OpenMode := Nat

/-- Modelled from the spec: `OpenOptions` is a bit-set of protocol-defined
open intents (section 3), an integer-backed flag type. -/
abbrev xrdfs.OpenOptions := Nat

/-- Modelled from the spec: an `EntryStat` is an immutable snapshot of one
filesystem entry — name, size, modification time, a mode/permission field and
a flags field (section 3). -/
structure xrdfs.EntryStat where
  EntryName : String
  EntrySize : Int
  Mtime : Int
  Mode : Nat
  Flags : Nat
deriving DecidableEq, Repr

/-- The Go zero value `xrdfs.EntryStat\x7b\x7d`. -/
def xrdfs.EntryStat.zero : xrdfs.EntryStat :=
  { EntryName := "", EntrySize := 0, Mtime := 0, Mode := 0, Flags := 0 }

/-- Modelled from the spec: `VirtualFSStat` carries aggregate capacity and
usage figures across the storage servers matching a path prefix (section 3). -/
structure xrdfs.VirtualFSStat where
  NumberRW : Nat
  FreeRW : Nat
  UtilizationRW : Nat
  NumberStaging : Nat
  FreeStaging : Nat
  UtilizationStaging : Nat
deriving DecidableEq, Repr

/-- The Go zero value `xrdfs.VirtualFSStat\x7b\x7d`. -/
def xrdfs.VirtualFSStat.zero : xrdfs.VirtualFSStat :=
  { NumberRW := 0, FreeRW := 0, UtilizationRW := 0,
    NumberStaging := 0, FreeStaging := 0, UtilizationStaging := 0 }

/-- Modelled from the spec: the opaque server-assigned handle of an open file
(section 3); its representation is irrelevant to the facade. -/
abbrev xrdfs.FileHandle := Nat

/-- Modelled from the spec: a compression descriptor — algorithm id plus
block size, zero value meaning uncompressed (section 3). -/
structure xrdfs.FileCompression where
  AlgorithmID : Nat
  BlockSize : Nat
deriving DecidableEq, Repr

/-- Modelled from the spec: the request of the dirlist verb carries the path
to list (sections 4.1, 6). -/
structure dirlist.Request where
  Path : String
deriving DecidableEq, Repr

/-- Modelled from the spec: `dirlist.NewRequest(path)` builds the one
directory-listing request for `path` (section 4.1). -/
def dirlist.NewRequest (path : String) : dirlist.Request :=
  { Path := path }

/-- Modelled from the spec: the dirlist response carries the ordered entries,
each already with full stat information inline (section 4.1). -/
structure dirlist.Response where
  Entries : List xrdfs.EntryStat
deriving DecidableEq, Repr

/-- Modelled from the spec: the open request carries path, mode bit-set and
options bit-set (section 4.2). -/
structure Open.Request where
  Path : String
  Mode : xrdfs.OpenMode
  Options : xrdfs.OpenOptions
deriving DecidableEq, Repr

/-- Modelled from the spec: `open.NewRequest(path, mode, options)` carries the
caller-supplied mode and options bit-sets verbatim (section 4.2).  The Go
package is named `open`, a Lean keyword, hence the capitalised namespace. -/
def Open.NewRequest (path : String) (mode : xrdfs.OpenMode)
    (options : xrdfs.OpenOptions) : Open.Request :=
  { Path := path, Mode := mode, Options := options }

/-- Modelled from the spec: the open response carries exactly three fields —
server handle, compression descriptor and stat snapshot (section 4.2). -/
structure Open.Response where
  FileHandle : xrdfs.FileHandle
  Compression : xrdfs.FileCompression
  Stat : xrdfs.EntryStat
deriving DecidableEq, Repr

/-- Modelled from the spec: the request of the rm verb (section 4.3). -/
structure rm.Request where
  Path : String
deriving DecidableEq, Repr

/-- Modelled from the spec: the request of the truncate verb carries the path
and the new size (section 4.3). -/
structure truncate.Request where
  Path : String
  Size : Int
deriving DecidableEq, Repr

/-- Modelled from the spec: the one stat request type shared by the default
and the virtual-filesystem variant, distinguished solely by an option flag
(section 4.5).  A field left out of a Go composite literal is its zero value,
rendered here as a field default. -/
structure stat.Request where
  Path : String
  Options : Nat := 0
deriving DecidableEq, Repr

/-- Modelled from the spec: the option bit requesting the virtual-filesystem
stat variant (section 4.5). -/
def stat.OptionsVFS : Nat := 1

/-- Modelled from the spec: the default stat response decodes to one
`EntryStat` (section 4.5). -/
structure stat.DefaultResponse where
  EntryStat : xrdfs.EntryStat
deriving DecidableEq, Repr

/-- Modelled from the spec: the virtual-filesystem stat response decodes to
one `VirtualFSStat` (section 4.5). -/
structure stat.VirtualFSResponse where
  VirtualFSStat : xrdfs.VirtualFSStat
deriving DecidableEq, Repr

/-- Modelled from the spec: the mkdir request carries path, permission bits
and an options bit-set; omitting `Options` leaves the Go zero value, no bit
set (section 4.4). -/
structure mkdir.Request where
  Path : String
  Mode : xrdfs.OpenMode
  Options : Nat := 0
deriving DecidableEq, Repr

/-- Modelled from the spec: the make-path option bit that delegates recursive
creation to the remote side (section 4.4). -/
def mkdir.OptionsMakePath : Nat := 1

/-- Modelled from the spec: the request of the rmdir verb (section 4.3). -/
structure rmdir.Request where
  Path : String
deriving DecidableEq, Repr

/-- Modelled from the spec: the request of the mv verb carries the old and the
new path (section 4.3). -/
structure mv.Request where
  OldPath : String
  NewPath : String
deriving DecidableEq, Repr

/-- Modelled from the spec: the request of the chmod verb carries the path and
the new permission bits (section 4.3). -/
structure chmod.Request where
  Path : String
  Mode : xrdfs.OpenMode
deriving DecidableEq, Repr

/-- The sum of every request value the facade can hand to the transport; one
constructor per protocol verb.  (`Open` is capitalised: `open` is a Lean
keyword.) -/
inductive ProtoRequest where
  | dirlist (r : dirlist.Request)
  | Open (r : Open.Request)
  | rm (r : rm.Request)
  | truncate (r : truncate.Request)
  | stat (r : stat.Request)
  | mkdir (r : mkdir.Request)
  | rmdir (r : rmdir.Request)
  | mv (r : mv.Request)
  | chmod (r : chmod.Request)
deriving DecidableEq, Repr

/-- Modelled from the spec: the transport collaborator of section 6.  It
exposes `call(ctx, request)` returning a raw acknowledgement, and
`send(ctx, responseSink, request)` decoding the answer directly into a typed
response value; since `send`'s outcome is indexed by the sink's type, it is
modelled as one oracle per sink type the facade uses.  The context token is
folded into each oracle's outcome: a context canceled before the response
arrives makes the exchange return `Err.canceled`. -/
structure Transport where
  call : ProtoRequest → Except Err (List Nat)
  sendDirlist : ProtoRequest → Except Err dirlist.Response
  sendOpen : ProtoRequest → Except Err Open.Response
  sendStatDefault : ProtoRequest → Except Err stat.DefaultResponse
  sendStatVFS : ProtoRequest → Except Err stat.VirtualFSResponse

/-- Modelled from the spec: the client owns the shared transport; everything
else about it is outside the examined layer. -/
structure Client where
  transport : Transport

/-- `Client.call`: one request over the wire, raw acknowledgement back.  The
singleton list records the single request this primitive sent. -/
def Client.call (c : Client) (req : ProtoRequest) :
    List ProtoRequest × Except Err (List Nat) :=
  ([req], c.transport.call req)

/-- `Client.Send` with a `dirlist.Response` sink. -/
def Client.sendDirlist (c : Client) (req : ProtoRequest) :
    List ProtoRequest × Except Err dirlist.Response :=
  ([req], c.transport.sendDirlist req)

/-- `Client.Send` with an `open.Response` sink. -/
def Client.sendOpen (c : Client) (req : ProtoRequest) :
    List ProtoRequest × Except Err Open.Response :=
  ([req], c.transport.sendOpen req)

/-- `Client.Send` with a `stat.DefaultResponse` sink. -/
def Client.sendStatDefault (c : Client) (req : ProtoRequest) :
    List ProtoRequest × Except Err stat.DefaultResponse :=
  ([req], c.transport.sendStatDefault req)

/-- `Client.Send` with a `stat.VirtualFSResponse` sink. -/
def Client.sendStatVFS (c : Client) (req : ProtoRequest) :
    List ProtoRequest × Except Err stat.VirtualFSResponse :=
  ([req], c.transport.sendStatVFS req)

/-- `fileSystem` contains filesystem-related methods of the XRootD protocol;
its whole state is the reference to the shared client. -/
structure fileSystem where
  c : Client

/-- `FS` returns the filesystem facade using this client to make requests. -/
def Client.FS (cli : Client) : fileSystem :=
  { c := cli }

/-- The outcome of one facade method: the receiver as the body left it, the
requests the body handed to the transport, and the Go return values. -/
structure FSCallResult (α : Type) where
  fsAfter : fileSystem
  sent : List ProtoRequest
  ret : α
  err : Option Err

/-- `Dirlist` returns the contents of a directory together with the stat
information. -/
def fileSystem.Dirlist (fs : fileSystem) (path : String) :
    FSCallResult (Option (List xrdfs.EntryStat)) :=
  let s := Client.sendDirlist fs.c (ProtoRequest.dirlist (dirlist.NewRequest path))
  match s.2 with
  | Except.error e => { fsAfter := fs, sent := s.1, ret := none, err := some e }
  | Except.ok resp => { fsAfter := fs, sent := s.1, ret := some resp.Entries, err := none }

/-- The concrete `file` value behind the `xrdfs.File` interface: back-reference
to the owning facade, server handle, compression descriptor, stat snapshot —
in the source, literally the four fields of `file\x7bfs, resp.FileHandle,
resp.Compression, resp.Stat\x7d`. -/
structure file where
  fs : fileSystem
  handle : xrdfs.FileHandle
  compression : xrdfs.FileCompression
  stat : xrdfs.EntryStat

/-- `Open` returns the file handle for a file together with the compression
and the stat info. -/
def fileSystem.Open (fs : fileSystem) (path : String) (mode : xrdfs.OpenMode)
    (options : xrdfs.OpenOptions) : FSCallResult (Option file) :=
  let s := Client.sendOpen fs.c (ProtoRequest.Open (Open.NewRequest path mode options))
  match s.2 with
  | Except.error e => { fsAfter := fs, sent := s.1, ret := none, err := some e }
  | Except.ok resp =>
      { fsAfter := fs, sent := s.1,
        ret := some { fs := fs, handle := resp.FileHandle,
                      compression := resp.Compression, stat := resp.Stat },
        err := none }

/-- `RemoveFile` removes a file. -/
def fileSystem.RemoveFile (fs : fileSystem) (path : String) :
    FSCallResult Unit :=
  let s := Client.call fs.c (ProtoRequest.rm { Path := path })
  { fsAfter := fs, sent := s.1, ret := (),
    err := match s.2 with
           | Except.error e => some e
           | Except.ok _ => none }

/-- `Truncate` changes the size of the named file. -/
def fileSystem.Truncate (fs : fileSystem) (path : String) (size : Int) :
    FSCallResult Unit :=
  let s := Client.call fs.c (ProtoRequest.truncate { Path := path, Size := size })
  { fsAfter := fs, sent := s.1, ret := (),
    err := match s.2 with
           | Except.error e => some e
           | Except.ok _ => none }

/-- `Stat` returns the entry stat info for the given path. -/
def fileSystem.Stat (fs : fileSystem) (path : String) :
    FSCallResult xrdfs.EntryStat :=
  let s := Client.sendStatDefault fs.c (ProtoRequest.stat { Path := path })
  match s.2 with
  | Except.error e => { fsAfter := fs, sent := s.1, ret := xrdfs.EntryStat.zero, err := some e }
  | Except.ok resp => { fsAfter := fs, sent := s.1, ret := resp.EntryStat, err := none }

/-- `VirtualStat` returns the virtual filesystem stat info for the given path
prefix. -/
def fileSystem.VirtualStat (fs : fileSystem) (path : String) :
    FSCallResult xrdfs.VirtualFSStat :=
  let s := Client.sendStatVFS fs.c
    (ProtoRequest.stat { Path := path, Options := stat.OptionsVFS })
  match s.2 with
  | Except.error e => { fsAfter := fs, sent := s.1, ret := xrdfs.VirtualFSStat.zero, err := some e }
  | Except.ok resp => { fsAfter := fs, sent := s.1, ret := resp.VirtualFSStat, err := none }

/-- `Mkdir` creates a directory; intermediate components must exist. -/
def fileSystem.Mkdir (fs : fileSystem) (path : String) (perm : xrdfs.OpenMode) :
    FSCallResult Unit :=
  let s := Client.call fs.c (ProtoRequest.mkdir { Path := path, Mode := perm })
  { fsAfter := fs, sent := s.1, ret := (),
    err := match s.2 with
           | Except.error e => some e
           | Except.ok _ => none }

/-- `MkdirAll` creates a directory together with missing intermediate
components, by setting the make-path option bit. -/
def fileSystem.MkdirAll (fs : fileSystem) (path : String) (perm : xrdfs.OpenMode) :
    FSCallResult Unit :=
  let s := Client.call fs.c
    (ProtoRequest.mkdir { Path := path, Mode := perm, Options := mkdir.OptionsMakePath })
  { fsAfter := fs, sent := s.1, ret := (),
    err := match s.2 with
           | Except.error e => some e
           | Except.ok _ => none }

/-- `RemoveDir` removes an (empty) directory. -/
def fileSystem.RemoveDir (fs : fileSystem) (path : String) :
    FSCallResult Unit :=
  let s := Client.call fs.c (ProtoRequest.rmdir { Path := path })
  { fsAfter := fs, sent := s.1, ret := (),
    err := match s.2 with
           | Except.error e => some e
           | Except.ok _ => none }

/-- `Rename` renames (moves) oldpath to newpath. -/
def fileSystem.Rename (fs : fileSystem) (oldpath newpath : String) :
    FSCallResult Unit :=
  let s := Client.call fs.c (ProtoRequest.mv { OldPath := oldpath, NewPath := newpath })
  { fsAfter := fs, sent := s.1, ret := (),
    err := match s.2 with
           | Except.error e => some e
           | Except.ok _ => none }

/-- `Chmod` changes the permissions of the named file to perm. -/
def fileSystem.Chmod (fs : fileSystem) (path : String) (perm : xrdfs.OpenMode) :
    FSCallResult Unit :=
  let s := Client.call fs.c (ProtoRequest.chmod { Path := path, Mode := perm })
  { fsAfter := fs, sent := s.1, ret := (),
    err := match s.2 with
           | Except.error e => some e
           | Except.ok _ => none }

/-- A concrete entry used by witness transports. -/
def sampleEntry : xrdfs.EntryStat :=
  { EntryName := "data.root", EntrySize := 42, Mtime := 100, Mode := 6, Flags := 1 }

/-- A second concrete entry used by witness transports. -/
def sampleEntry2 : xrdfs.EntryStat :=
  { EntryName := "sub", EntrySize := 0, Mtime := 7, Mode := 7, Flags := 2 }

/-- A concrete virtual-filesystem stat used by witness transports. -/
def sampleVFS : xrdfs.VirtualFSStat :=
  { NumberRW := 2, FreeRW := 10, UtilizationRW := 3,
    NumberStaging := 1, FreeStaging := 5, UtilizationStaging := 4 }

/-- A concrete open response used by witness transports. -/
def sampleOpenResp : Open.Response :=
  { FileHandle := 7, Compression := { AlgorithmID := 1, BlockSize := 4096 },
    Stat := sampleEntry }

/-- A transport whose every exchange succeeds with fixed responses. -/
def okTransport : Transport :=
  { call := fun _ => Except.ok [0, 1],
    sendDirlist := fun _ => Except.ok { Entries := [sampleEntry, sampleEntry2] },
    sendOpen := fun _ => Except.ok sampleOpenResp,
    sendStatDefault := fun _ => Except.ok { EntryStat := sampleEntry },
    sendStatVFS := fun _ => Except.ok { VirtualFSStat := sampleVFS } }

/-- A transport whose every exchange fails with the given error. -/
def errTransport (e : Err) : Transport :=
  { call := fun _ => Except.error e,
    sendDirlist := fun _ => Except.error e,
    sendOpen := fun _ => Except.error e,
    sendStatDefault := fun _ => Except.error e,
    sendStatVFS := fun _ => Except.error e }

/-- A facade over the all-succeeding transport. -/
def fsOk : fileSystem :=
  Client.FS { transport := okTransport }

/-- A facade over an all-failing transport. -/
def fsErr (e : Err) : fileSystem :=
  Client.FS { transport := errTransport e }

/-- A concrete protocol-level error. -/
def sampleErr : Err :=
  Err.protocol 3011 "no such file"

/-- Claim C1: `Mkdir(ctx, path, perm)` sends exactly one mkdir request carrying
`path` and `perm` with no option bits set, and `MkdirAll(ctx, path, perm)` sends
exactly one request of the same shape differing only in that the make-path
option bit is set; neither operation issues more than one request or any
client-side per-component loop. -/
theorem Mkdir_MkdirAll_single_request (fs : fileSystem) (path : String)
    (perm : xrdfs.OpenMode) :
    (fileSystem.Mkdir fs path perm).sent
      = [ProtoRequest.mkdir { Path := path, Mode := perm, Options := 0 }]
    ∧ (fileSystem.MkdirAll fs path perm).sent
      = [ProtoRequest.mkdir { Path := path, Mode := perm, Options := mkdir.OptionsMakePath }]
    ∧ mkdir.OptionsMakePath ≠ 0 :=
  ⟨rfl, rfl, by decide⟩

/-- Claim C7: `Dirlist(ctx, path)` sends exactly one directory-listing request
for `path` and, on success, returns the entries of the decoded response in the
order the response carries them, issuing no additional per-entry stat
request (the trace holds the single dirlist request and nothing else). -/
theorem Dirlist_single_request_ordered (fs : fileSystem) (path : String) :
    (fileSystem.Dirlist fs path).sent = [ProtoRequest.dirlist { Path := path }]
    ∧ ∀ r, fs.c.transport.sendDirlist (ProtoRequest.dirlist (dirlist.NewRequest path))
          = Except.ok r →
        (fileSystem.Dirlist fs path).ret = some r.Entries
        ∧ (fileSystem.Dirlist fs path).err = none := by
  constructor
  · simp only [fileSystem.Dirlist, Client.sendDirlist, dirlist.NewRequest]
    split <;> rfl
  · intro r h
    simp [fileSystem.Dirlist, Client.sendDirlist, h]

/-- Claim C7 witness: over the all-succeeding transport, the listing is the
response's entry list in order. -/
theorem Dirlist_single_request_ordered_witness :
    (fileSystem.Dirlist fsOk "dir").ret = some [sampleEntry, sampleEntry2]
    ∧ (fileSystem.Dirlist fsOk "dir").err = none :=
  (Dirlist_single_request_ordered fsOk "dir").2 { Entries := [sampleEntry, sampleEntry2] } rfl

/-- Claim C8: `RemoveFile`, `Truncate`, `RemoveDir`, `Rename` and `Chmod` each
send exactly one request carrying exactly their arguments, ignore the response
payload (any successful payload yields a nil error), and return only the
success/failure error of the exchange. -/
theorem simple_path_operations_single_request (fs : fileSystem)
    (path oldpath newpath : String) (perm : xrdfs.OpenMode) (size : Int) :
    ((fileSystem.RemoveFile fs path).sent = [ProtoRequest.rm { Path := path }]
      ∧ (∀ d, fs.c.transport.call (ProtoRequest.rm { Path := path }) = Except.ok d →
          (fileSystem.RemoveFile fs path).err = none)
      ∧ (∀ e, fs.c.transport.call (ProtoRequest.rm { Path := path }) = Except.error e →
          (fileSystem.RemoveFile fs path).err = some e))
    ∧ ((fileSystem.Truncate fs path size).sent
          = [ProtoRequest.truncate { Path := path, Size := size }]
      ∧ (∀ d, fs.c.transport.call (ProtoRequest.truncate { Path := path, Size := size })
            = Except.ok d → (fileSystem.Truncate fs path size).err = none)
      ∧ (∀ e, fs.c.transport.call (ProtoRequest.truncate { Path := path, Size := size })
            = Except.error e → (fileSystem.Truncate fs path size).err = some e))
    ∧ ((fileSystem.RemoveDir fs path).sent = [ProtoRequest.rmdir { Path := path }]
      ∧ (∀ d, fs.c.transport.call (ProtoRequest.rmdir { Path := path }) = Except.ok d →
          (fileSystem.RemoveDir fs path).err = none)
      ∧ (∀ e, fs.c.transport.call (ProtoRequest.rmdir { Path := path }) = Except.error e →
          (fileSystem.RemoveDir fs path).err = some e))
    ∧ ((fileSystem.Rename fs oldpath newpath).sent
          = [ProtoRequest.mv { OldPath := oldpath, NewPath := newpath }]
      ∧ (∀ d, fs.c.transport.call (ProtoRequest.mv { OldPath := oldpath, NewPath := newpath })
            = Except.ok d → (fileSystem.Rename fs oldpath newpath).err = none)
      ∧ (∀ e, fs.c.transport.call (ProtoRequest.mv { OldPath := oldpath, NewPath := newpath })
            = Except.error e → (fileSystem.Rename fs oldpath newpath).err = some e))
    ∧ ((fileSystem.Chmod fs path perm).sent
          = [ProtoRequest.chmod { Path := path, Mode := perm }]
      ∧ (∀ d, fs.c.transport.call (ProtoRequest.chmod { Path := path, Mode := perm })
            = Except.ok d → (fileSystem.Chmod fs path perm).err = none)
      ∧ (∀ e, fs.c.transport.call (ProtoRequest.chmod { Path := path, Mode := perm })
            = Except.error e → (fileSystem.Chmod fs path perm).err = some e)) := by
  refine ⟨⟨rfl, fun d h => ?_, fun e h => ?_⟩, ⟨rfl, fun d h => ?_, fun e h => ?_⟩,
    ⟨rfl, fun d h => ?_, fun e h => ?_⟩, ⟨rfl, fun d h => ?_, fun e h => ?_⟩,
    ⟨rfl, fun d h => ?_, fun e h => ?_⟩⟩ <;>
  simp [fileSystem.RemoveFile, fileSystem.Truncate, fileSystem.RemoveDir,
    fileSystem.Rename, fileSystem.Chmod, Client.call, h]

/-- Claim C8 witness: the five simple path operations evaluated over the
all-succeeding and the all-failing concrete transports. -/
theorem simple_path_operations_single_request_witness :
    (fileSystem.RemoveFile fsOk "p").err = none
    ∧ (fileSystem.Truncate fsOk "p" 5).err = none
    ∧ (fileSystem.RemoveDir fsOk "p").err = none
    ∧ (fileSystem.Rename fsOk "a" "b").err = none
    ∧ (fileSystem.Chmod fsOk "p" 6).err = none
    ∧ (fileSystem.RemoveFile (fsErr sampleErr) "p").err = some sampleErr := by
  have T := simple_path_operations_single_request fsOk "p" "a" "b" 6 5
  have E := simple_path_operations_single_request (fsErr sampleErr) "p" "a" "b" 6 5
  exact ⟨T.1.2.1 [0, 1] rfl, T.2.1.2.1 [0, 1] rfl, T.2.2.1.2.1 [0, 1] rfl,
    T.2.2.2.1.2.1 [0, 1] rfl, T.2.2.2.2.2.1 [0, 1] rfl, E.1.2.2 sampleErr rfl⟩

/-- Claim C9: the facade is stateless — `FS` builds a facade holding exactly
the client reference, a `fileSystem` value consists of nothing but that
reference, and every operation leaves the receiver unchanged (stores no state
between calls). -/
theorem facade_stateless (cli : Client) (fs : fileSystem)
    (path oldpath newpath : String) (perm mode : xrdfs.OpenMode)
    (options : xrdfs.OpenOptions) (size : Int) :
    Client.FS cli = { c := cli }
    ∧ fs = { c := fs.c }
    ∧ (fileSystem.Dirlist fs path).fsAfter = fs
    ∧ (fileSystem.Open fs path mode options).fsAfter = fs
    ∧ (fileSystem.RemoveFile fs path).fsAfter = fs
    ∧ (fileSystem.Truncate fs path size).fsAfter = fs
    ∧ (fileSystem.Stat fs path).fsAfter = fs
    ∧ (fileSystem.VirtualStat fs path).fsAfter = fs
    ∧ (fileSystem.Mkdir fs path perm).fsAfter = fs
    ∧ (fileSystem.MkdirAll fs path perm).fsAfter = fs
    ∧ (fileSystem.RemoveDir fs path).fsAfter = fs
    ∧ (fileSystem.Rename fs oldpath newpath).fsAfter = fs
    ∧ (fileSystem.Chmod fs path perm).fsAfter = fs := by
  refine ⟨rfl, rfl, ?_, ?_, rfl, rfl, ?_, ?_, rfl, rfl, rfl, rfl, rfl⟩
  · cases h : fs.c.transport.sendDirlist (ProtoRequest.dirlist (dirlist.NewRequest path)) <;>
      simp [fileSystem.Dirlist, Client.sendDirlist, h]
  · cases h : fs.c.transport.sendOpen (ProtoRequest.Open (Open.NewRequest path mode options)) <;>
      simp [fileSystem.Open, Client.sendOpen, h]
  · cases h : fs.c.transport.sendStatDefault (ProtoRequest.stat { Path := path }) <;>
      simp [fileSystem.Stat, Client.sendStatDefault, h]
  · cases h : fs.c.transport.sendStatVFS
        (ProtoRequest.stat { Path := path, Options := stat.OptionsVFS }) <;>
      simp [fileSystem.VirtualStat, Client.sendStatVFS, h]

/-- Claim C2: `Stat` and `VirtualStat` build the same request type carrying
`path`, differing only in that `VirtualStat` sets the VFS option flag; `Stat`
decodes the default stat response into an `EntryStat` and `VirtualStat`
decodes the virtual-filesystem response into a `VirtualFSStat`; each result
depends only on its own response channel, so neither ever populates the
other's field set from its response. -/
theorem Stat_VirtualStat_pairings (fs fs2 : fileSystem) (path : String) :
    (fileSystem.Stat fs path).sent = [ProtoRequest.stat { Path := path, Options := 0 }]
    ∧ (fileSystem.VirtualStat fs path).sent
        = [ProtoRequest.stat { Path := path, Options := stat.OptionsVFS }]
    ∧ stat.OptionsVFS ≠ 0
    ∧ (∀ r, fs.c.transport.sendStatDefault (ProtoRequest.stat { Path := path })
          = Except.ok r →
        (fileSystem.Stat fs path).ret = r.EntryStat
        ∧ (fileSystem.Stat fs path).err = none)
    ∧ (∀ r, fs.c.transport.sendStatVFS
          (ProtoRequest.stat { Path := path, Options := stat.OptionsVFS }) = Except.ok r →
        (fileSystem.VirtualStat fs path).ret = r.VirtualFSStat
        ∧ (fileSystem.VirtualStat fs path).err = none)
    ∧ (fs.c.transport.sendStatDefault = fs2.c.transport.sendStatDefault →
        (fileSystem.Stat fs path).ret = (fileSystem.Stat fs2 path).ret
        ∧ (fileSystem.Stat fs path).err = (fileSystem.Stat fs2 path).err)
    ∧ (fs.c.transport.sendStatVFS = fs2.c.transport.sendStatVFS →
        (fileSystem.VirtualStat fs path).ret = (fileSystem.VirtualStat fs2 path).ret
        ∧ (fileSystem.VirtualStat fs path).err = (fileSystem.VirtualStat fs2 path).err) := by
  refine ⟨?_, ?_, by decide, fun r h => ?_, fun r h => ?_, fun hEq => ?_, fun hEq => ?_⟩
  · simp only [fileSystem.Stat, Client.sendStatDefault]
    split <;> rfl
  · simp only [fileSystem.VirtualStat, Client.sendStatVFS]
    split <;> rfl
  · simp [fileSystem.Stat, Client.sendStatDefault, h]
  · simp [fileSystem.VirtualStat, Client.sendStatVFS, h]
  · have hEq2 := congrFun hEq (ProtoRequest.stat { Path := path })
    cases h2 : fs2.c.transport.sendStatDefault (ProtoRequest.stat { Path := path }) <;>
      (rw [h2] at hEq2; simp [fileSystem.Stat, Client.sendStatDefault, hEq2, h2])
  · have hEq2 := congrFun hEq (ProtoRequest.stat { Path := path, Options := stat.OptionsVFS })
    cases h2 : fs2.c.transport.sendStatVFS
        (ProtoRequest.stat { Path := path, Options := stat.OptionsVFS }) <;>
      (rw [h2] at hEq2; simp [fileSystem.VirtualStat, Client.sendStatVFS, hEq2, h2])

/-- Claim C2 witness: over the all-succeeding transport, `Stat` yields the
default response's entry and `VirtualStat` the virtual-filesystem response's
record. -/
theorem Stat_VirtualStat_pairings_witness :
    (fileSystem.Stat fsOk "p").ret = sampleEntry
    ∧ (fileSystem.VirtualStat fsOk "p").ret = sampleVFS := by
  have T := Stat_VirtualStat_pairings fsOk fsOk "p"
  exact ⟨(T.2.2.2.1 { EntryStat := sampleEntry } rfl).1,
    (T.2.2.2.2.1 { VirtualFSStat := sampleVFS } rfl).1⟩

/-- Claim C3: `Open(ctx, path, mode, options)` sends exactly one open request
carrying the caller-supplied mode and options bit-sets unchanged, and on
success returns a file whose handle, compression descriptor and stat snapshot
are exactly the three fields of the decoded open response. -/
theorem Open_request_verbatim_file_fields (fs : fileSystem) (path : String)
    (mode : xrdfs.OpenMode) (options : xrdfs.OpenOptions) :
    (fileSystem.Open fs path mode options).sent
        = [ProtoRequest.Open { Path := path, Mode := mode, Options := options }]
    ∧ ∀ r, fs.c.transport.sendOpen (ProtoRequest.Open (Open.NewRequest path mode options))
          = Except.ok r →
        (fileSystem.Open fs path mode options).ret
            = some { fs := fs, handle := r.FileHandle,
                     compression := r.Compression, stat := r.Stat }
        ∧ (fileSystem.Open fs path mode options).err = none := by
  constructor
  · simp only [fileSystem.Open, Client.sendOpen, Open.NewRequest]
    split <;> rfl
  · intro r h
    simp [fileSystem.Open, Client.sendOpen, h]

/-- Claim C3 witness: over the all-succeeding transport, the returned file is
built from exactly the three fields of the concrete open response. -/
theorem Open_request_verbatim_file_fields_witness :
    (fileSystem.Open fsOk "f" 4 2).ret
        = some { fs := fsOk, handle := 7,
                 compression := { AlgorithmID := 1, BlockSize := 4096 },
                 stat := sampleEntry }
    ∧ (fileSystem.Open fsOk "f" 4 2).err = none :=
  (Open_request_verbatim_file_fields fsOk "f" 4 2).2 sampleOpenResp rfl

/-- Claim C10: at the public interface, the error-branch return values are
fixed — when the transport reports an error, `Dirlist` returns the nil entry
sequence, `Open` the nil file, `Stat` the zero-valued `EntryStat` record and
`VirtualStat` the zero-valued `VirtualFSStat` record, each paired with the
reported error. -/
theorem error_branch_fixed_values (fs : fileSystem) (e : Err) (path : String)
    (mode : xrdfs.OpenMode) (options : xrdfs.OpenOptions) :
    (fs.c.transport.sendDirlist (ProtoRequest.dirlist (dirlist.NewRequest path))
          = Except.error e →
        (fileSystem.Dirlist fs path).ret = none
        ∧ (fileSystem.Dirlist fs path).err = some e)
    ∧ (fs.c.transport.sendOpen (ProtoRequest.Open (Open.NewRequest path mode options))
          = Except.error e →
        (fileSystem.Open fs path mode options).ret = none
        ∧ (fileSystem.Open fs path mode options).err = some e)
    ∧ (fs.c.transport.sendStatDefault (ProtoRequest.stat { Path := path })
          = Except.error e →
        (fileSystem.Stat fs path).ret = xrdfs.EntryStat.zero
        ∧ (fileSystem.Stat fs path).err = some e)
    ∧ (fs.c.transport.sendStatVFS
          (ProtoRequest.stat { Path := path, Options := stat.OptionsVFS })
          = Except.error e →
        (fileSystem.VirtualStat fs path).ret = xrdfs.VirtualFSStat.zero
        ∧ (fileSystem.VirtualStat fs path).err = some e) := by
  refine ⟨fun h => ?_, fun h => ?_, fun h => ?_, fun h => ?_⟩ <;>
    simp [fileSystem.Dirlist, fileSystem.Open, fileSystem.Stat, fileSystem.VirtualStat,
      Client.sendDirlist, Client.sendOpen, Client.sendStatDefault, Client.sendStatVFS, h]

/-- Claim C10 witness: the four error-branch values over a concrete failing
transport. -/
theorem error_branch_fixed_values_witness :
    (fileSystem.Dirlist (fsErr sampleErr) "p").ret = none
    ∧ (fileSystem.Open (fsErr sampleErr) "p" 0 0).ret = none
    ∧ (fileSystem.Stat (fsErr sampleErr) "p").ret = xrdfs.EntryStat.zero
    ∧ (fileSystem.VirtualStat (fsErr sampleErr) "p").ret = xrdfs.VirtualFSStat.zero := by
  have T := error_branch_fixed_values (fsErr sampleErr) sampleErr "p" 0 0
  exact ⟨(T.1 rfl).1, (T.2.1 rfl).1, (T.2.2.1 rfl).1, (T.2.2.2 rfl).1⟩

/-- Claim C5: for every facade operation, if the transport reports a
cancellation error before a response arrives, the operation returns that
cancellation error and no populated entity — the nil entry sequence for
`Dirlist`, the nil file for `Open`, the zero-valued records for `Stat` and
`VirtualStat`, and the bare error for the void operations. -/
theorem cancellation_no_entity (fs : fileSystem) (path oldpath newpath : String)
    (perm mode : xrdfs.OpenMode) (options : xrdfs.OpenOptions) (size : Int) :
    (fs.c.transport.sendDirlist (ProtoRequest.dirlist (dirlist.NewRequest path))
          = Except.error Err.canceled →
        (fileSystem.Dirlist fs path).ret = none
        ∧ (fileSystem.Dirlist fs path).err = some Err.canceled)
    ∧ (fs.c.transport.sendOpen (ProtoRequest.Open (Open.NewRequest path mode options))
          = Except.error Err.canceled →
        (fileSystem.Open fs path mode options).ret = none
        ∧ (fileSystem.Open fs path mode options).err = some Err.canceled)
    ∧ (fs.c.transport.sendStatDefault (ProtoRequest.stat { Path := path })
          = Except.error Err.canceled →
        (fileSystem.Stat fs path).ret = xrdfs.EntryStat.zero
        ∧ (fileSystem.Stat fs path).err = some Err.canceled)
    ∧ (fs.c.transport.sendStatVFS
          (ProtoRequest.stat { Path := path, Options := stat.OptionsVFS })
          = Except.error Err.canceled →
        (fileSystem.VirtualStat fs path).ret = xrdfs.VirtualFSStat.zero
        ∧ (fileSystem.VirtualStat fs path).err = some Err.canceled)
    ∧ (fs.c.transport.call (ProtoRequest.rm { Path := path }) = Except.error Err.canceled →
        (fileSystem.RemoveFile fs path).err = some Err.canceled)
    ∧ (fs.c.transport.call (ProtoRequest.truncate { Path := path, Size := size })
          = Except.error Err.canceled →
        (fileSystem.Truncate fs path size).err = some Err.canceled)
    ∧ (fs.c.transport.call (ProtoRequest.mkdir { Path := path, Mode := perm })
          = Except.error Err.canceled →
        (fileSystem.Mkdir fs path perm).err = some Err.canceled)
    ∧ (fs.c.transport.call
          (ProtoRequest.mkdir { Path := path, Mode := perm, Options := mkdir.OptionsMakePath })
          = Except.error Err.canceled →
        (fileSystem.MkdirAll fs path perm).err = some Err.canceled)
    ∧ (fs.c.transport.call (ProtoRequest.rmdir { Path := path }) = Except.error Err.canceled →
        (fileSystem.RemoveDir fs path).err = some Err.canceled)
    ∧ (fs.c.transport.call (ProtoRequest.mv { OldPath := oldpath, NewPath := newpath })
          = Except.error Err.canceled →
        (fileSystem.Rename fs oldpath newpath).err = some Err.canceled)
    ∧ (fs.c.transport.call (ProtoRequest.chmod { Path := path, Mode := perm })
          = Except.error Err.canceled →
        (fileSystem.Chmod fs path perm).err = some Err.canceled) := by
  refine ⟨fun h => ?_, fun h => ?_, fun h => ?_, fun h => ?_, fun h => ?_, fun h => ?_,
    fun h => ?_, fun h => ?_, fun h => ?_, fun h => ?_, fun h => ?_⟩ <;>
  simp [fileSystem.Dirlist, fileSystem.Open, fileSystem.Stat, fileSystem.VirtualStat,
    fileSystem.RemoveFile, fileSystem.Truncate, fileSystem.Mkdir, fileSystem.MkdirAll,
    fileSystem.RemoveDir, fileSystem.Rename, fileSystem.Chmod, Client.call,
    Client.sendDirlist, Client.sendOpen, Client.sendStatDefault, Client.sendStatVFS, h]

/-- Claim C5 witness: every operation evaluated over a transport whose every
exchange is canceled. -/
theorem cancellation_no_entity_witness :
    (fileSystem.Dirlist (fsErr Err.canceled) "p").ret = none
    ∧ (fileSystem.Dirlist (fsErr Err.canceled) "p").err = some Err.canceled
    ∧ (fileSystem.Open (fsErr Err.canceled) "p" 0 0).ret = none
    ∧ (fileSystem.Stat (fsErr Err.canceled) "p").ret = xrdfs.EntryStat.zero
    ∧ (fileSystem.VirtualStat (fsErr Err.canceled) "p").ret = xrdfs.VirtualFSStat.zero
    ∧ (fileSystem.RemoveFile (fsErr Err.canceled) "p").err = some Err.canceled
    ∧ (fileSystem.Truncate (fsErr Err.canceled) "p" 5).err = some Err.canceled
    ∧ (fileSystem.Mkdir (fsErr Err.canceled) "p" 6).err = some Err.canceled
    ∧ (fileSystem.MkdirAll (fsErr Err.canceled) "p" 6).err = some Err.canceled
    ∧ (fileSystem.RemoveDir (fsErr Err.canceled) "p").err = some Err.canceled
    ∧ (fileSystem.Rename (fsErr Err.canceled) "a" "b").err = some Err.canceled
    ∧ (fileSystem.Chmod (fsErr Err.canceled) "p" 6).err = some Err.canceled := by
  have T := cancellation_no_entity (fsErr Err.canceled) "p" "a" "b" 6 0 0 5
  exact ⟨(T.1 rfl).1, (T.1 rfl).2, (T.2.1 rfl).1, (T.2.2.1 rfl).1, (T.2.2.2.1 rfl).1,
    T.2.2.2.2.1 rfl, T.2.2.2.2.2.1 rfl, T.2.2.2.2.2.2.1 rfl, T.2.2.2.2.2.2.2.1 rfl,
    T.2.2.2.2.2.2.2.2.1 rfl, T.2.2.2.2.2.2.2.2.2.1 rfl, T.2.2.2.2.2.2.2.2.2.2 rfl⟩

/-- Claim C6: every facade operation surfaces the error produced by the
transport primitive unchanged — the same error value, no wrapping,
translation, recovery or replacement — and generates no error of its own: a
failed exchange yields exactly the transport's error, and a successful
exchange (whatever its response) yields a nil error. -/
theorem errors_surfaced_unchanged (fs : fileSystem) (e : Err)
    (path oldpath newpath : String) (perm mode : xrdfs.OpenMode)
    (options : xrdfs.OpenOptions) (size : Int) :
    ((fs.c.transport.sendDirlist (ProtoRequest.dirlist (dirlist.NewRequest path))
          = Except.error e → (fileSystem.Dirlist fs path).err = some e)
      ∧ ∀ r, fs.c.transport.sendDirlist (ProtoRequest.dirlist (dirlist.NewRequest path))
          = Except.ok r → (fileSystem.Dirlist fs path).err = none)
    ∧ ((fs.c.transport.sendOpen (ProtoRequest.Open (Open.NewRequest path mode options))
          = Except.error e → (fileSystem.Open fs path mode options).err = some e)
      ∧ ∀ r, fs.c.transport.sendOpen (ProtoRequest.Open (Open.NewRequest path mode options))
          = Except.ok r → (fileSystem.Open fs path mode options).err = none)
    ∧ ((fs.c.transport.sendStatDefault (ProtoRequest.stat { Path := path })
          = Except.error e → (fileSystem.Stat fs path).err = some e)
      ∧ ∀ r, fs.c.transport.sendStatDefault (ProtoRequest.stat { Path := path })
          = Except.ok r → (fileSystem.Stat fs path).err = none)
    ∧ ((fs.c.transport.sendStatVFS
          (ProtoRequest.stat { Path := path, Options := stat.OptionsVFS })
          = Except.error e → (fileSystem.VirtualStat fs path).err = some e)
      ∧ ∀ r, fs.c.transport.sendStatVFS
          (ProtoRequest.stat { Path := path, Options := stat.OptionsVFS })
          = Except.ok r → (fileSystem.VirtualStat fs path).err = none)
    ∧ ((fs.c.transport.call (ProtoRequest.rm { Path := path }) = Except.error e →
        (fileSystem.RemoveFile fs path).err = some e)
      ∧ ∀ d, fs.c.transport.call (ProtoRequest.rm { Path := path }) = Except.ok d →
        (fileSystem.RemoveFile fs path).err = none)
    ∧ ((fs.c.transport.call (ProtoRequest.truncate { Path := path, Size := size })
          = Except.error e → (fileSystem.Truncate fs path size).err = some e)
      ∧ ∀ d, fs.c.transport.call (ProtoRequest.truncate { Path := path, Size := size })
          = Except.ok d → (fileSystem.Truncate fs path size).err = none)
    ∧ ((fs.c.transport.call (ProtoRequest.mkdir { Path := path, Mode := perm })
          = Except.error e → (fileSystem.Mkdir fs path perm).err = some e)
      ∧ ∀ d, fs.c.transport.call (ProtoRequest.mkdir { Path := path, Mode := perm })
          = Except.ok d → (fileSystem.Mkdir fs path perm).err = none)
    ∧ ((fs.c.transport.call
          (ProtoRequest.mkdir { Path := path, Mode := perm, Options := mkdir.OptionsMakePath })
          = Except.error e → (fileSystem.MkdirAll fs path perm).err = some e)
      ∧ ∀ d, fs.c.transport.call
          (ProtoRequest.mkdir { Path := path, Mode := perm, Options := mkdir.OptionsMakePath })
          = Except.ok d → (fileSystem.MkdirAll fs path perm).err = none)
    ∧ ((fs.c.transport.call (ProtoRequest.rmdir { Path := path }) = Except.error e →
        (fileSystem.RemoveDir fs path).err = some e)
      ∧ ∀ d, fs.c.transport.call (ProtoRequest.rmdir { Path := path }) = Except.ok d →
        (fileSystem.RemoveDir fs path).err = none)
    ∧ ((fs.c.transport.call (ProtoRequest.mv { OldPath := oldpath, NewPath := newpath })
          = Except.error e → (fileSystem.Rename fs oldpath newpath).err = some e)
      ∧ ∀ d, fs.c.transport.call (ProtoRequest.mv { OldPath := oldpath, NewPath := newpath })
          = Except.ok d → (fileSystem.Rename fs oldpath newpath).err = none)
    ∧ ((fs.c.transport.call (ProtoRequest.chmod { Path := path, Mode := perm })
          = Except.error e → (fileSystem.Chmod fs path perm).err = some e)
      ∧ ∀ d, fs.c.transport.call (ProtoRequest.chmod { Path := path, Mode := perm })
          = Except.ok d → (fileSystem.Chmod fs path perm).err = none) := by
  refine ⟨⟨fun h => ?_, fun x h => ?_⟩, ⟨fun h => ?_, fun x h => ?_⟩,
    ⟨fun h => ?_, fun x h => ?_⟩, ⟨fun h => ?_, fun x h => ?_⟩,
    ⟨fun h => ?_, fun x h => ?_⟩, ⟨fun h => ?_, fun x h => ?_⟩,
    ⟨fun h => ?_, fun x h => ?_⟩, ⟨fun h => ?_, fun x h => ?_⟩,
    ⟨fun h => ?_, fun x h => ?_⟩, ⟨fun h => ?_, fun x h => ?_⟩,
    ⟨fun h => ?_, fun x h => ?_⟩⟩ <;>
  simp [fileSystem.Dirlist, fileSystem.Open, fileSystem.Stat, fileSystem.VirtualStat,
    fileSystem.RemoveFile, fileSystem.Truncate, fileSystem.Mkdir, fileSystem.MkdirAll,
    fileSystem.RemoveDir, fileSystem.Rename, fileSystem.Chmod, Client.call,
    Client.sendDirlist, Client.sendOpen, Client.sendStatDefault, Client.sendStatVFS, h]

/-- Claim C6 witness: over a transport failing with one concrete protocol
error every operation returns exactly that error value, and over the
all-succeeding transport every operation returns a nil error. -/
theorem errors_surfaced_unchanged_witness :
    (fileSystem.Dirlist (fsErr sampleErr) "p").err = some sampleErr
    ∧ (fileSystem.Open (fsErr sampleErr) "p" 0 0).err = some sampleErr
    ∧ (fileSystem.Stat (fsErr sampleErr) "p").err = some sampleErr
    ∧ (fileSystem.VirtualStat (fsErr sampleErr) "p").err = some sampleErr
    ∧ (fileSystem.RemoveFile (fsErr sampleErr) "p").err = some sampleErr
    ∧ (fileSystem.Truncate (fsErr sampleErr) "p" 5).err = some sampleErr
    ∧ (fileSystem.Mkdir (fsErr sampleErr) "p" 6).err = some sampleErr
    ∧ (fileSystem.MkdirAll (fsErr sampleErr) "p" 6).err = some sampleErr
    ∧ (fileSystem.RemoveDir (fsErr sampleErr) "p").err = some sampleErr
    ∧ (fileSystem.Rename (fsErr sampleErr) "a" "b").err = some sampleErr
    ∧ (fileSystem.Chmod (fsErr sampleErr) "p" 6).err = some sampleErr
    ∧ (fileSystem.Dirlist fsOk "p").err = none
    ∧ (fileSystem.Open fsOk "p" 0 0).err = none
    ∧ (fileSystem.Stat fsOk "p").err = none
    ∧ (fileSystem.VirtualStat fsOk "p").err = none
    ∧ (fileSystem.RemoveFile fsOk "p").err = none
    ∧ (fileSystem.Truncate fsOk "p" 5).err = none
    ∧ (fileSystem.Mkdir fsOk "p" 6).err = none
    ∧ (fileSystem.MkdirAll fsOk "p" 6).err = none
    ∧ (fileSystem.RemoveDir fsOk "p").err = none
    ∧ (fileSystem.Rename fsOk "a" "b").err = none
    ∧ (fileSystem.Chmod fsOk "p" 6).err = none := by
  have T := errors_surfaced_unchanged (fsErr sampleErr) sampleErr "p" "a" "b" 6 0 0 5
  have K := errors_surfaced_unchanged fsOk sampleErr "p" "a" "b" 6 0 0 5
  exact ⟨T.1.1 rfl, T.2.1.1 rfl, T.2.2.1.1 rfl, T.2.2.2.1.1 rfl, T.2.2.2.2.1.1 rfl,
    T.2.2.2.2.2.1.1 rfl, T.2.2.2.2.2.2.1.1 rfl, T.2.2.2.2.2.2.2.1.1 rfl,
    T.2.2.2.2.2.2.2.2.1.1 rfl, T.2.2.2.2.2.2.2.2.2.1.1 rfl, T.2.2.2.2.2.2.2.2.2.2.1 rfl,
    K.1.2 { Entries := [sampleEntry, sampleEntry2] } rfl,
    K.2.1.2 sampleOpenResp rfl,
    K.2.2.1.2 { EntryStat := sampleEntry } rfl,
    K.2.2.2.1.2 { VirtualFSStat := sampleVFS } rfl,
    K.2.2.2.2.1.2 [0, 1] rfl, K.2.2.2.2.2.1.2 [0, 1] rfl,
    K.2.2.2.2.2.2.1.2 [0, 1] rfl, K.2.2.2.2.2.2.2.1.2 [0, 1] rfl,
    K.2.2.2.2.2.2.2.2.1.2 [0, 1] rfl, K.2.2.2.2.2.2.2.2.2.1.2 [0, 1] rfl,
    K.2.2.2.2.2.2.2.2.2.2.2 [0, 1] rfl⟩

/-- Claim C4 counterexample: the clause that no default-valued `EntryStat`
instance is ever returned alongside a reported error fails on the code — over
a transport reporting a concrete protocol error, `Stat` returns the
zero-valued (default) `EntryStat` record together with that error, exactly as
the source line `return xrdfs.EntryStat\x7b\x7d, err` prescribes. -/
theorem default_entry_alongside_error_counterexample :
    ¬ ∀ (fs : fileSystem) (path : String),
        (fileSystem.Stat fs path).err ≠ none →
        (fileSystem.Stat fs path).ret ≠ xrdfs.EntryStat.zero := by
  intro hAll
  exact hAll (fsErr sampleErr) "p" (fun h => Option.noConfusion h) rfl

/-- Claim C4 (amended): result exclusivity holds at the level of response
data — on success the error is nil and the entity is populated from the
decoded response; on failure the error is populated and the entity position
carries no response data: the nil slice for `Dirlist`, the nil file for
`Open`, and exactly the zero-valued (default) record — never a decoded or
partially decoded one — for `Stat` and `VirtualStat`. -/
theorem result_exclusivity_amended (fs : fileSystem) (path : String)
    (mode : xrdfs.OpenMode) (options : xrdfs.OpenOptions) :
    ((fileSystem.Dirlist fs path).err = none ↔ (fileSystem.Dirlist fs path).ret ≠ none)
    ∧ ((fileSystem.Open fs path mode options).err = none
        ↔ (fileSystem.Open fs path mode options).ret ≠ none)
    ∧ ((fileSystem.Stat fs path).err ≠ none →
        (fileSystem.Stat fs path).ret = xrdfs.EntryStat.zero)
    ∧ ((fileSystem.VirtualStat fs path).err ≠ none →
        (fileSystem.VirtualStat fs path).ret = xrdfs.VirtualFSStat.zero)
    ∧ ((fileSystem.Stat fs path).err = none →
        ∃ r, fs.c.transport.sendStatDefault (ProtoRequest.stat { Path := path })
            = Except.ok r ∧ (fileSystem.Stat fs path).ret = r.EntryStat)
    ∧ ((fileSystem.VirtualStat fs path).err = none →
        ∃ r, fs.c.transport.sendStatVFS
              (ProtoRequest.stat { Path := path, Options := stat.OptionsVFS })
            = Except.ok r ∧ (fileSystem.VirtualStat fs path).ret = r.VirtualFSStat) := by
  refine ⟨?_, ?_, ?_, ?_, ?_, ?_⟩
  · cases h : fs.c.transport.sendDirlist (ProtoRequest.dirlist (dirlist.NewRequest path)) <;>
      simp [fileSystem.Dirlist, Client.sendDirlist, h]
  · cases h : fs.c.transport.sendOpen (ProtoRequest.Open (Open.NewRequest path mode options)) <;>
      simp [fileSystem.Open, Client.sendOpen, h]
  · cases h : fs.c.transport.sendStatDefault (ProtoRequest.stat { Path := path }) <;>
      simp [fileSystem.Stat, Client.sendStatDefault, h]
  · cases h : fs.c.transport.sendStatVFS
        (ProtoRequest.stat { Path := path, Options := stat.OptionsVFS }) <;>
      simp [fileSystem.VirtualStat, Client.sendStatVFS, h]
  · cases h : fs.c.transport.sendStatDefault (ProtoRequest.stat { Path := path }) <;>
      simp [fileSystem.Stat, Client.sendStatDefault, h]
  · cases h : fs.c.transport.sendStatVFS
        (ProtoRequest.stat { Path := path, Options := stat.OptionsVFS }) <;>
      simp [fileSystem.VirtualStat, Client.sendStatVFS, h]

/-- Claim C4 (amended) witness: on a concrete failing transport the entity
positions hold exactly the zero-valued records. -/
theorem result_exclusivity_amended_witness :
    (fileSystem.Stat (fsErr sampleErr) "p").ret = xrdfs.EntryStat.zero
    ∧ (fileSystem.VirtualStat (fsErr sampleErr) "p").ret = xrdfs.VirtualFSStat.zero := by
  have T := result_exclusivity_amended (fsErr sampleErr) "p" 0 0
  exact ⟨T.2.2.1 (fun h => Option.noConfusion h), T.2.2.2.1 (fun h => Option.noConfusion h)⟩
